import Mathlib

/-!
Verification of the CZlib interoperability shim
(`Sources/CZlib/include/CNIOExtrasZlib.h`).

The header defines two one-line forwarding functions over zlib:

  static inline int CZlib_inflateInit2(z_streamp strm, int windowBits) {
      return inflateInit2(strm, windowBits);
  }

  static inline Bytef *CZlib_voidPtr_to_BytefPtr(void *in) {
      return (Bytef *)in;
  }

zlib itself (`<zlib.h>`) is an external dependency and is not part of the
repository; where a property depends on zlib's behaviour, zlib is modelled
from the specification and the modelling is recorded in the doc comment of
the definition.
-/

/-- The C null pointer.  Memory addresses (C pointer values) are modelled
as natural numbers; `0` is the null pointer.  A C pointer cast changes only
the static type of an expression, never the address it denotes. -/
def nullPtr : Nat := 0

/-- From the source (`CNIOExtrasZlib.h`, lines 10-12):
`static inline Bytef *CZlib_voidPtr_to_BytefPtr(void *in) { return (Bytef *)in; }`.
The cast `(Bytef *)in` re-types the pointer expression; the address is
returned unchanged, with no null check, no copy, no bounds check and no
address arithmetic. -/
def CZlib_voidPtr_to_BytefPtr (p : Nat) : Nat := p

/-- Byte-addressed memory, used to state what reads and writes through a
pointer observe.  The cast function itself never takes or returns memory. -/
abbrev Mem := Nat → UInt8

/-- Writing the byte list `bs` into memory `m` starting at address `p`
(what a caller does through the returned `Bytef` pointer). -/
def writeBytes (m : Mem) (p : Nat) (bs : List UInt8) : Mem := fun a =>
  if p ≤ a ∧ a < p + bs.length then bs.getD (a - p) 0 else m a

/-- Reading `n` bytes from memory `m` starting at address `p`
(what a caller observes through the original untyped reference). -/
def readBytes (m : Mem) (p : Nat) (n : Nat) : List UInt8 :=
  (List.range n).map fun i => m (p + i)

/-- zlib status code `Z_OK` (success). -/
def Z_OK : Int := 0

/-- zlib status code `Z_STREAM_ERROR` (invalid parameter or inconsistent
stream state). -/
def Z_STREAM_ERROR : Int := -2

/-- zlib status code `Z_VERSION_ERROR` (incompatible library version). -/
def Z_VERSION_ERROR : Int := -6

/-- Modelled from the spec: the zlib-owned contents of a stream-state
handle.  The fields (internal buffers, window configuration, checksum
accumulator, processing mode) are opaque to the shim; the model records
whether, and with which window-bits value, the handle was last initialized
for inflation. -/
inductive ZStreamState where
  | uninit : ZStreamState
  | inflateReady : Int → ZStreamState
deriving DecidableEq, Repr

/-- A caller-allocated zlib stream-state handle (`z_stream`); the shim
receives a reference to it and passes it through. -/
structure ZStream where
  istate : ZStreamState
deriving DecidableEq, Repr

/-- Modelled from the spec: `ZLIB_VERSION`, the version string of the zlib
headers the shim is compiled against (`<zlib.h>` is not shipped by the
repository); the concrete value stands for whatever constant those headers
define at the shim's build time. -/
def ZLIB_VERSION : String := "1.2.11"

/-- Modelled from the spec: `(int)sizeof(z_stream)` of the zlib headers the
shim is compiled against; a fixed build-time constant. -/
def z_stream_size : Int := 112

/-- Modelled from the spec: a zlib implementation, i.e. the
`inflateInit2_(strm, windowBits, version, stream_size)` entry point behind
the `inflateInit2` macro.  It is kept abstract so that pass-through
properties of the shim hold for every zlib implementation; the in-place
mutation of `*strm` is modelled by returning the new handle contents
alongside the integer status code. -/
structure ZlibImpl where
  inflateInit2_ : ZStream → Int → String → Int → ZStream × Int

/-- Modelled from the spec: the window-bits values accepted by zlib's
windowed inflate initialization: 8..15 (zlib format, window of size 2^w),
-15..-8 (raw deflate), 24..31 (gzip, +16) and 40..47 (auto-detect, +32);
values such as 0 or 100 are outside the accepted range. -/
def validWindowBits (w : Int) : Bool :=
  decide ((8 ≤ w ∧ w ≤ 15) ∨ (-15 ≤ w ∧ w ≤ -8) ∨ (24 ≤ w ∧ w ≤ 31) ∨ (40 ≤ w ∧ w ≤ 47))

/-- Modelled from the spec: the behaviour of `inflateInit2_` in a zlib
runtime whose own version string is `runtimeVersion`: a version or
stream-size mismatch yields `Z_VERSION_ERROR` and leaves the handle
untouched; a window-bits value outside the accepted range yields
`Z_STREAM_ERROR`; otherwise the handle is (re)initialized for the requested
window and `Z_OK` is returned. -/
def zlib_inflateInit2_ (runtimeVersion : String) (strm : ZStream) (windowBits : Int)
    (version : String) (stream_size : Int) : ZStream × Int :=
  if version = runtimeVersion ∧ stream_size = z_stream_size then
    if validWindowBits windowBits then
      ({ istate := ZStreamState.inflateReady windowBits }, Z_OK)
    else (strm, Z_STREAM_ERROR)
  else (strm, Z_VERSION_ERROR)

/-- Modelled from the spec: the zlib runtime with version string
`runtimeVersion`, packaged as a `ZlibImpl`. -/
def zlibRuntime (runtimeVersion : String) : ZlibImpl :=
  ⟨fun strm w ver size => zlib_inflateInit2_ runtimeVersion strm w ver size⟩

/-- Modelled from the spec: the `inflateInit2` macro of `<zlib.h>`,
expanded at the shim's compilation site.  The macro supplies the hidden
extra arguments — `ZLIB_VERSION` and `(int)sizeof(z_stream)` — from the
headers the expanding translation unit was compiled against. -/
def inflateInit2 (z : ZlibImpl) (strm : ZStream) (windowBits : Int) : ZStream × Int :=
  z.inflateInit2_ strm windowBits ZLIB_VERSION z_stream_size

/-- From the source (`CNIOExtrasZlib.h`, lines 6-8):
`static inline int CZlib_inflateInit2(z_streamp strm, int windowBits) { return inflateInit2(strm, windowBits); }`. -/
def CZlib_inflateInit2 (z : ZlibImpl) (strm : ZStream) (windowBits : Int) : ZStream × Int :=
  inflateInit2 z strm windowBits

/-- Modelled from the spec: calling the underlying library's
windowed-initialization routine directly with the same two arguments — the
spec's comparison point for pass-through fidelity: the same macro expansion
performed at the caller's own site, against the same headers. -/
def directInflateInit2 (z : ZlibImpl) (strm : ZStream) (windowBits : Int) : ZStream × Int :=
  z.inflateInit2_ strm windowBits ZLIB_VERSION z_stream_size

/-- The world visible across a call to the shim: every caller-owned
stream-state handle (addressed by pointer) and all other caller-owned
memory.  The shim owns no state of its own. -/
structure World where
  streams : Nat → ZStream
  heap : Mem

/-- `CZlib_inflateInit2` at the world level: the handle at address `sp` is
mutated in place (`*strm`); nothing else in the world is touched. -/
def CZlib_inflateInit2_world (z : ZlibImpl) (w : World) (sp : Nat) (windowBits : Int) :
    World × Int :=
  let r := CZlib_inflateInit2 z (w.streams sp) windowBits
  (⟨fun p => if p = sp then r.1 else w.streams p, w.heap⟩, r.2)

/-- A concrete world used to witness the frame property: every handle
uninitialized, all memory zero. -/
def world0 : World :=
  ⟨fun _ => ⟨ZStreamState.uninit⟩, fun _ => 0⟩

/-- Claim C1: for every zlib implementation, every stream-state handle and
every window-bits value, `CZlib_inflateInit2` forwards both arguments
unchanged to the underlying windowed-initialization routine (the
`inflateInit2` macro) and yields exactly its resulting stream state and its
integer status code, never inspecting, remapping or swallowing either. -/
theorem c1_inflateInit2_pass_through (z : ZlibImpl) (strm : ZStream) (windowBits : Int) :
    CZlib_inflateInit2 z strm windowBits = directInflateInit2 z strm windowBits ∧
    (CZlib_inflateInit2 z strm windowBits).1 = (directInflateInit2 z strm windowBits).1 ∧
    (CZlib_inflateInit2 z strm windowBits).2 = (directInflateInit2 z strm windowBits).2 :=
  ⟨rfl, rfl, rfl⟩

/-- Claim C2: `CZlib_voidPtr_to_BytefPtr` returns the same address for
every input pointer: no null check, no copy, no bounds check, no address
transformation of any kind. -/
theorem c2_cast_is_identity (p : Nat) : CZlib_voidPtr_to_BytefPtr p = p := rfl

/-- Claim C3: for a window-bits value outside zlib's accepted range, the
shim (linked against a matching zlib runtime) returns zlib's defined
non-zero error status rather than crashing, introducing no status codes of
its own. -/
theorem c3_invalid_window_bits_error (strm : ZStream) (windowBits : Int)
    (h : validWindowBits windowBits = false) :
    (CZlib_inflateInit2 (zlibRuntime ZLIB_VERSION) strm windowBits).2 = Z_STREAM_ERROR ∧
    (CZlib_inflateInit2 (zlibRuntime ZLIB_VERSION) strm windowBits).2 ≠ 0 := by
  constructor
  · simp [CZlib_inflateInit2, inflateInit2, zlibRuntime, zlib_inflateInit2_, h]
  · simp [CZlib_inflateInit2, inflateInit2, zlibRuntime, zlib_inflateInit2_, h, Z_STREAM_ERROR]

/-- Witness for claim C3 at the concrete invalid window-bits value 100. -/
theorem c3_invalid_window_bits_error_witness :
    validWindowBits 100 = false ∧
    ((CZlib_inflateInit2 (zlibRuntime ZLIB_VERSION) ⟨ZStreamState.uninit⟩ 100).2 = Z_STREAM_ERROR ∧
     (CZlib_inflateInit2 (zlibRuntime ZLIB_VERSION) ⟨ZStreamState.uninit⟩ 100).2 ≠ 0) :=
  ⟨by decide, c3_invalid_window_bits_error ⟨ZStreamState.uninit⟩ 100 (by decide)⟩

/-- Claim C4: for a buffer of `len` bytes at address `b` and a byte list
`bs` with at most `len` bytes, writing `bs` through the pointer returned by
`CZlib_voidPtr_to_BytefPtr b` and reading `bs.length` bytes back through
the original untyped reference `b` yields byte-identical content, and any
address outside the written range is unchanged: the reinterpretation copies
and transforms nothing. -/
theorem c4_roundtrip_identity (m : Mem) (b : Nat) (len : Nat) (bs : List UInt8) (a : Nat)
    (hlen : bs.length ≤ len) (ha : a < b ∨ b + bs.length ≤ a) :
    readBytes (writeBytes m (CZlib_voidPtr_to_BytefPtr b) bs) b bs.length = bs ∧
    writeBytes m (CZlib_voidPtr_to_BytefPtr b) bs a = m a := by
  constructor
  · apply List.ext_getElem
    · simp [readBytes]
    · intro i hi hib
      simp only [readBytes, CZlib_voidPtr_to_BytefPtr, writeBytes, List.getElem_map,
        List.getElem_range]
      have hib' : i < bs.length := by simpa [readBytes] using hi
      have hc : b ≤ b + i ∧ b + i < b + bs.length := ⟨Nat.le_add_right _ _, by omega⟩
      rw [if_pos hc, Nat.add_sub_cancel_left]
      exact List.getD_eq_getElem bs 0 hib'
  · have hn : ¬(b ≤ a ∧ a < b + bs.length) := by rcases ha with h | h <;> omega
    simp only [writeBytes, CZlib_voidPtr_to_BytefPtr]
    rw [if_neg hn]

/-- Witness for claim C4: two bytes written at address 3 in a buffer of
length 2, read back intact, with address 0 untouched. -/
theorem c4_roundtrip_identity_witness :
    ([7, 9] : List UInt8).length ≤ 2 ∧
    ((0 : Nat) < 3 ∨ 3 + ([7, 9] : List UInt8).length ≤ 0) ∧
    (readBytes (writeBytes (fun _ => 0) (CZlib_voidPtr_to_BytefPtr 3) [7, 9]) 3
        ([7, 9] : List UInt8).length = [7, 9] ∧
     writeBytes (fun _ => 0) (CZlib_voidPtr_to_BytefPtr 3) [7, 9] 0 = (fun _ => (0 : UInt8)) 0) :=
  ⟨by decide, Or.inl (by decide),
   c4_roundtrip_identity (fun _ => 0) 3 2 [7, 9] 0 (by decide) (Or.inl (by decide))⟩

/-- Claim C5: a call to the shim mutates only the caller-owned handle it
was given, and mutates it exactly as the library routine does; every other
handle and all other memory are unchanged, and the shim — a pure forwarding
call with no state of its own — allocates nothing and retains nothing. -/
theorem c5_frame_only_handle (z : ZlibImpl) (w : World) (sp : Nat) (windowBits : Int)
    (p : Nat) (hp : p ≠ sp) :
    (CZlib_inflateInit2_world z w sp windowBits).1.streams p = w.streams p ∧
    (CZlib_inflateInit2_world z w sp windowBits).1.heap = w.heap ∧
    (CZlib_inflateInit2_world z w sp windowBits).1.streams sp
      = (directInflateInit2 z (w.streams sp) windowBits).1 ∧
    (CZlib_inflateInit2_world z w sp windowBits).2
      = (directInflateInit2 z (w.streams sp) windowBits).2 := by
  refine ⟨?_, rfl, ?_, rfl⟩
  · simp [CZlib_inflateInit2_world, hp]
  · simp [CZlib_inflateInit2_world, CZlib_inflateInit2, inflateInit2, directInflateInit2]

/-- Witness for claim C5: initializing the handle at address 0 of the
all-uninitialized world leaves the handle at address 1 and the heap
untouched. -/
theorem c5_frame_only_handle_witness :
    (1 : Nat) ≠ 0 ∧
    ((CZlib_inflateInit2_world (zlibRuntime ZLIB_VERSION) world0 0 15).1.streams 1
        = world0.streams 1 ∧
     (CZlib_inflateInit2_world (zlibRuntime ZLIB_VERSION) world0 0 15).1.heap = world0.heap ∧
     (CZlib_inflateInit2_world (zlibRuntime ZLIB_VERSION) world0 0 15).1.streams 0
        = (directInflateInit2 (zlibRuntime ZLIB_VERSION) (world0.streams 0) 15).1 ∧
     (CZlib_inflateInit2_world (zlibRuntime ZLIB_VERSION) world0 0 15).2
        = (directInflateInit2 (zlibRuntime ZLIB_VERSION) (world0.streams 0) 15).2) :=
  ⟨by decide, c5_frame_only_handle (zlibRuntime ZLIB_VERSION) world0 0 15 1 (by decide)⟩

/-- Claim C6: two successive shim calls on the same handle (first with
`w1`, then with `w2`) behave exactly like two direct library calls — the
first call's resulting handle feeds the second — and each call
reinitializes the handle: for the concrete zlib model the final handle
state is fully determined by the second window-bits value, with no hidden
shim state carried between the calls. -/
theorem c6_double_init (z : ZlibImpl) (strm : ZStream) (w1 w2 : Int)
    (h1 : validWindowBits w1 = true) (h2 : validWindowBits w2 = true) :
    CZlib_inflateInit2 z strm w1 = directInflateInit2 z strm w1 ∧
    CZlib_inflateInit2 z (CZlib_inflateInit2 z strm w1).1 w2
      = directInflateInit2 z (directInflateInit2 z strm w1).1 w2 ∧
    (CZlib_inflateInit2 (zlibRuntime ZLIB_VERSION)
        (CZlib_inflateInit2 (zlibRuntime ZLIB_VERSION) strm w1).1 w2).1
      = ⟨ZStreamState.inflateReady w2⟩ := by
  refine ⟨rfl, rfl, ?_⟩
  simp [CZlib_inflateInit2, inflateInit2, zlibRuntime, zlib_inflateInit2_, h1, h2]

/-- Witness for claim C6 at window-bits 15 then 31 on an uninitialized
handle. -/
theorem c6_double_init_witness :
    validWindowBits 15 = true ∧ validWindowBits 31 = true ∧
    (CZlib_inflateInit2 (zlibRuntime ZLIB_VERSION) ⟨ZStreamState.uninit⟩ 15
      = directInflateInit2 (zlibRuntime ZLIB_VERSION) ⟨ZStreamState.uninit⟩ 15 ∧
     CZlib_inflateInit2 (zlibRuntime ZLIB_VERSION)
        (CZlib_inflateInit2 (zlibRuntime ZLIB_VERSION) ⟨ZStreamState.uninit⟩ 15).1 31
      = directInflateInit2 (zlibRuntime ZLIB_VERSION)
        (directInflateInit2 (zlibRuntime ZLIB_VERSION) ⟨ZStreamState.uninit⟩ 15).1 31 ∧
     (CZlib_inflateInit2 (zlibRuntime ZLIB_VERSION)
        (CZlib_inflateInit2 (zlibRuntime ZLIB_VERSION) ⟨ZStreamState.uninit⟩ 15).1 31).1
      = ⟨ZStreamState.inflateReady 31⟩) :=
  ⟨by decide, by decide,
   c6_double_init (zlibRuntime ZLIB_VERSION) ⟨ZStreamState.uninit⟩ 15 31 (by decide) (by decide)⟩

/-- Claim C8: the hidden extra arguments the expanded macro supplies — the
version string and the stream-structure size — are the shim's build-time
constants, independent of everything the caller passes; consequently a
runtime zlib whose version differs from the shim's headers reports the
version-mismatch error and leaves the handle untouched. -/
theorem c8_build_time_version_check (z : ZlibImpl) (rv : String) (strm : ZStream)
    (windowBits : Int) (h : rv ≠ ZLIB_VERSION) :
    CZlib_inflateInit2 z strm windowBits
      = z.inflateInit2_ strm windowBits ZLIB_VERSION z_stream_size ∧
    CZlib_inflateInit2 (zlibRuntime rv) strm windowBits = (strm, Z_VERSION_ERROR) := by
  refine ⟨rfl, ?_⟩
  simp [CZlib_inflateInit2, inflateInit2, zlibRuntime, zlib_inflateInit2_, Ne.symm h]

/-- Witness for claim C8 against a runtime whose version string is
"0.0.0". -/
theorem c8_build_time_version_check_witness :
    ("0.0.0" : String) ≠ ZLIB_VERSION ∧
    (CZlib_inflateInit2 (zlibRuntime ZLIB_VERSION) ⟨ZStreamState.uninit⟩ 15
      = (zlibRuntime ZLIB_VERSION).inflateInit2_ ⟨ZStreamState.uninit⟩ 15 ZLIB_VERSION
          z_stream_size ∧
     CZlib_inflateInit2 (zlibRuntime "0.0.0") ⟨ZStreamState.uninit⟩ 15
      = (⟨ZStreamState.uninit⟩, Z_VERSION_ERROR)) :=
  ⟨by decide,
   c8_build_time_version_check (zlibRuntime ZLIB_VERSION) "0.0.0" ⟨ZStreamState.uninit⟩ 15
     (by decide)⟩

/-- Claim C9: the pointer reinterpretation is total and deterministic over
all inputs including null — it maps the null pointer to the null pointer —
and it is injective: distinct input addresses yield distinct outputs. -/
theorem c9_total_null_injective (p q : Nat)
    (h : CZlib_voidPtr_to_BytefPtr p = CZlib_voidPtr_to_BytefPtr q) :
    CZlib_voidPtr_to_BytefPtr nullPtr = nullPtr ∧ p = q :=
  ⟨rfl, h⟩

/-- Witness for claim C9 at the concrete address 5. -/
theorem c9_total_null_injective_witness :
    CZlib_voidPtr_to_BytefPtr 5 = CZlib_voidPtr_to_BytefPtr 5 ∧
    (CZlib_voidPtr_to_BytefPtr nullPtr = nullPtr ∧ (5 : Nat) = 5) :=
  ⟨rfl, c9_total_null_injective 5 5 rfl⟩
